import Mathlib

/-!
Shallow embedding of the envelope serialization layer and the multiplexer of
src/aea/mail/base.py, together with theorems settling the frozen claims about
that module.  Line numbers in doc comments refer to src/aea/mail/base.py.
-/

set_option maxHeartbeats 1000000

namespace AeaMail

/-- Modelled from the spec: public identifiers (aea/configurations/base.py is
not under src/) have the shape author/name:version with non-empty components;
equality is structural and the wire representation is the canonical string
form. -/
structure PublicId where
  author : String
  pkgName : String
  version : String
deriving DecidableEq, Repr

abbrev ProtocolId := PublicId

abbrev Address := String

/-- Modelled from the spec: the canonical string form author/name:version of a
public id (what str(public_id) produces). -/
def PublicId.toStr (p : PublicId) : String :=
  p.author ++ "/" ++ p.pkgName ++ ":" ++ p.version

/-- Split a character list at every occurrence of the separator, keeping empty
pieces, as Python str.split does for a one-character separator.  The
accumulator holds the current piece reversed. -/
def splitOnCharAux (c : Char) (acc : List Char) : List Char → List (List Char)
  | [] => [acc.reverse]
  | x :: xs =>
    if x = c then acc.reverse :: splitOnCharAux c [] xs
    else splitOnCharAux c (x :: acc) xs

def splitOnChar (c : Char) (l : List Char) : List (List Char) :=
  splitOnCharAux c [] l

/-- Modelled from the spec: PublicId.from_str parses the canonical form
author/name:version and fails on malformed input (the serializer surfaces the
failure as a DecodeError). -/
def PublicId.from_str (s : String) : Option PublicId :=
  match splitOnChar '/' s.toList with
  | [a, rest] =>
    match splitOnChar ':' rest with
    | [n, v] =>
      if a = [] ∨ n = [] ∨ v = [] then none
      else some ⟨String.mk a, String.mk n, String.mk v⟩
    | _ => none
  | _ => none

/-- URI (lines 51-144).  The parsed components all come from
urllib.parse.urlparse (standard library, outside src/) applied to the stored
raw string, so they are functions of uri_raw: equal raw strings give
field-wise-equal URIs, which is the equality URI implements at lines 130-144.
The development only ever distinguishes a present URI from an absent one or
compares URIs carrying identical raw strings, so the parse itself is not
modelled. -/
structure URI where
  uri_raw : String
deriving DecidableEq, Repr

/-- EnvelopeContext (lines 147-179): optional routing hints; equality is
field-wise (lines 173-179). -/
structure EnvelopeContext where
  connection_id : Option PublicId := none
  uri : Option URI := none
deriving DecidableEq, Repr

/-- EnvelopeContext.uri_raw (lines 162-165) returns str(self.uri); Python's
str(None) is the four-character string "None". -/
def EnvelopeContext.uri_raw (c : EnvelopeContext) : String :=
  match c.uri with
  | some u => u.uri_raw
  | none => "None"

/-- Envelope (lines 261-359): to, sender, protocol_id, opaque message bytes
and a context; a missing context is replaced by an empty EnvelopeContext at
construction (line 287), which the default field value models.  Equality is
field-wise over all five fields (lines 350-359). -/
structure Envelope where
  toAddr : Address
  sender : Address
  protocol_id : ProtocolId
  message : List Nat
  context : EnvelopeContext := {}
deriving DecidableEq, Repr

/-- The protobuf wire record base_pb2.Envelope (generated code, outside src/):
five string/bytes fields with tags 1..5 in declared order; SerializeToString
and ParseFromString of the protobuf library are mutually inverse on records,
so the serializer is modelled record-to-record. -/
structure ProtoEnvelope where
  toAddr : String
  sender : String
  protocol_id : String
  message : List Nat
  uri : String := ""
deriving DecidableEq, Repr

/-- ProtobufEnvelopeSerializer.encode (lines 207-223).  Envelope construction
replaces a missing context by EnvelopeContext() (line 287), so the guard
"if envelope.context is not None" at line 219 always holds and the uri field
is always assigned envelope.context.uri_raw. -/
def ProtobufEnvelopeSerializer.encode (envelope : Envelope) : ProtoEnvelope :=
  { toAddr := envelope.toAddr
  , sender := envelope.sender
  , protocol_id := envelope.protocol_id.toStr
  , message := envelope.message
  , uri := envelope.context.uri_raw }

/-- ProtobufEnvelopeSerializer.decode (lines 225-255): a failing
PublicId.from_str is the DecodeError case; the branch at line 239 tests
envelope_pb.uri == "" and on that branch builds EnvelopeContext(uri=URI(uri)),
while a non-empty uri field falls to the branch building an Envelope with the
default (empty) context. -/
def ProtobufEnvelopeSerializer.decode (pb : ProtoEnvelope) : Option Envelope :=
  match PublicId.from_str pb.protocol_id with
  | none => none
  | some pid =>
    if pb.uri = "" then
      some { toAddr := pb.toAddr
           , sender := pb.sender
           , protocol_id := pid
           , message := pb.message
           , context := { connection_id := none, uri := some { uri_raw := pb.uri } } }
    else
      some { toAddr := pb.toAddr
           , sender := pb.sender
           , protocol_id := pid
           , message := pb.message
           , context := {} }

/-- An envelope whose context carries only a URI: the failing input for the
round-trip claim. -/
def envelopeWithUri : Envelope :=
  { toAddr := "A"
  , sender := "B"
  , protocol_id := ⟨"fetchai", "default", "0.1.0"⟩
  , message := [104, 101, 108, 108, 111]
  , context := { connection_id := none, uri := some { uri_raw := "http://x/y" } } }

/-- C1: the round-trip claim fails on the code.  Decoding the encoding of an
envelope whose context contains only the URI "http://x/y" yields an envelope
with an empty context (the URI is dropped), which is not structurally equal to
the original: the decode branch at line 239 keeps the uri only when the wire
field is the empty string, inverting the convention its own comment states. -/
theorem c1_uri_roundtrip_fails :
    ProtobufEnvelopeSerializer.decode (ProtobufEnvelopeSerializer.encode envelopeWithUri)
      = some { toAddr := "A"
             , sender := "B"
             , protocol_id := ⟨"fetchai", "default", "0.1.0"⟩
             , message := [104, 101, 108, 108, 111]
             , context := {} }
    ∧ ProtobufEnvelopeSerializer.decode (ProtobufEnvelopeSerializer.encode envelopeWithUri)
      ≠ some envelopeWithUri := by
  constructor
  · rfl
  · decide

/-- A well-formed wire record whose uri field is the empty string. -/
def recordEmptyUri : ProtoEnvelope :=
  { toAddr := "A"
  , sender := "B"
  , protocol_id := "fetchai/default:0.1.0"
  , message := [104, 105]
  , uri := "" }

/-- The same wire record with a non-empty uri field. -/
def recordHttpUri : ProtoEnvelope :=
  { recordEmptyUri with uri := "http://x/y" }

/-- C2: the decode branches are swapped relative to the claim.  An empty uri
field yields a context wrapping URI("") (not an empty context), and a
non-empty uri field yields the empty context (the URI is not parsed and not
kept). -/
theorem c2_decode_branches_swapped :
    ProtobufEnvelopeSerializer.decode recordEmptyUri
      = some { toAddr := "A"
             , sender := "B"
             , protocol_id := ⟨"fetchai", "default", "0.1.0"⟩
             , message := [104, 105]
             , context := { connection_id := none, uri := some { uri_raw := "" } } }
    ∧ ProtobufEnvelopeSerializer.decode recordHttpUri
      = some { toAddr := "A"
             , sender := "B"
             , protocol_id := ⟨"fetchai", "default", "0.1.0"⟩
             , message := [104, 105]
             , context := {} } := by
  constructor <;> rfl

/-- An envelope whose context carries no URI. -/
def envelopeNoUri : Envelope :=
  { toAddr := "A"
  , sender := "B"
  , protocol_id := ⟨"fetchai", "default", "0.1.0"⟩
  , message := [104]
  , context := {} }

/-- C9: when the context carries no URI, encode emits the uri wire field as
the string "None" (str(None) through EnvelopeContext.uri_raw, lines 162-165
and 219-220), not as the empty string the claim requires. -/
theorem c9_absent_uri_encoded_as_None_string :
    (ProtobufEnvelopeSerializer.encode envelopeNoUri).uri = "None"
    ∧ (ProtobufEnvelopeSerializer.encode envelopeNoUri).uri ≠ "" := by
  constructor
  · rfl
  · decide

/-- Modelled from the spec: ConnectionStatus (aea/connections/base.py is not
under src/): lifecycle state with the two derived booleans the multiplexer
reads, is_connected and is_connecting. -/
structure ConnectionStatus where
  is_connected : Bool := false
  is_connecting : Bool := false
deriving DecidableEq, Repr

/-- Modelled from the spec: the Connection capability set (aea/connections/base.py
is not under src/): a ConnectionId, a ConnectionStatus and a possibly empty
whitelist restricted_to_protocols; the behavioural operations connect, send and
receive are supplied as oracles where a claim needs them. -/
structure Connection where
  connection_id : PublicId
  connection_status : ConnectionStatus := {}
  restricted_to_protocols : List ProtocolId := []
deriving DecidableEq, Repr

/-- The state of AsyncMultiplexer (lines 399-441) relevant to the claims: the
ordered connection sequence, the default connection (the constructor sets it to
connections[default_connection_index] after bounds-checking the index and
asserting the list non-empty with unique ids, lines 417-430), the mutable
default-routing dict (an association list with unique keys) and the aggregate
_connection_status flag. -/
structure AsyncMultiplexer where
  connections : List Connection
  default_connection : Connection
  default_routing : List (ProtocolId × PublicId) := []
  connection_status : ConnectionStatus := {}
deriving DecidableEq, Repr

/-- Lookup in a dict modelled as an association list with unique keys. -/
def dictLookup (d : List (ProtocolId × PublicId)) (k : ProtocolId) : Option PublicId :=
  (d.find? (fun kv => kv.1 == k)).map (fun kv => kv.2)

/-- The mapping _id_to_connection (lines 425-427) looked up by connection id;
ids are unique by the constructor's assert, so first-match lookup is the
dict lookup. -/
def AsyncMultiplexer.idToConnection (m : AsyncMultiplexer) (cid : PublicId) :
    Option Connection :=
  m.connections.find? (fun c => c.connection_id == cid)

/-- AsyncMultiplexer.is_connected (lines 461-464): true iff every child
connection reports connected. -/
def AsyncMultiplexer.is_connected (m : AsyncMultiplexer) : Bool :=
  m.connections.all (fun c => c.connection_status.is_connected)

/-- What one call of _send (lines 679-725) does, seen from the caller:
raise AEAConnectionError for an unregistered id (lines 699-702), drop the
envelope with a warning and return without sending when the chosen connection's
non-empty whitelist excludes the protocol (lines 711-720), or reach
connection.send on the chosen connection (line 723). -/
inductive SendAction where
  | connectionError (cid : PublicId)
  | droppedIncompatibleProtocol (conn : Connection)
  | sendOn (conn : Connection)
deriving DecidableEq, Repr

/-- Routing steps one and two of _send (lines 688-697): the context's
connection id if set, else the default-routing entry for the envelope's
protocol id if present. -/
def AsyncMultiplexer.contextOrRoutingId (m : AsyncMultiplexer) (envelope : Envelope) :
    Option PublicId :=
  match envelope.context.connection_id with
  | some cid => some cid
  | none => dictLookup m.default_routing envelope.protocol_id

/-- The whitelist check and send of _send (lines 710-725). -/
def checkRestrictedAndSend (connection : Connection) (envelope : Envelope) : SendAction :=
  if connection.restricted_to_protocols.length > 0
      ∧ envelope.protocol_id ∉ connection.restricted_to_protocols then
    .droppedIncompatibleProtocol connection
  else
    .sendOn connection

/-- AsyncMultiplexer._send (lines 679-725) as a routing decision: resolve the
connection id from context then default routing; an id absent from
_id_to_connection raises AEAConnectionError; no id at all selects the default
connection; the chosen connection's whitelist is then checked before
connection.send runs. -/
def AsyncMultiplexer.send (m : AsyncMultiplexer) (envelope : Envelope) : SendAction :=
  match m.contextOrRoutingId envelope with
  | some cid =>
    match m.idToConnection cid with
    | none => .connectionError cid
    | some connection => checkRestrictedAndSend connection envelope
  | none => checkRestrictedAndSend m.default_connection envelope

/-- The connection _send resolves to (lines 699-708) when it does not raise:
the registered connection for the resolved id, or the default connection when
no id was resolved. -/
def AsyncMultiplexer.routedConnection (m : AsyncMultiplexer) (envelope : Envelope) :
    Option Connection :=
  match m.contextOrRoutingId envelope with
  | some cid => m.idToConnection cid
  | none => some m.default_connection

/-- The connection id a SendAction concerns. -/
def SendAction.target : SendAction → PublicId
  | .connectionError cid => cid
  | .droppedIncompatibleProtocol conn => conn.connection_id
  | .sendOn conn => conn.connection_id

lemma checkRestrictedAndSend_target (c : Connection) (e : Envelope) :
    (checkRestrictedAndSend c e).target = c.connection_id := by
  unfold checkRestrictedAndSend
  split <;> rfl

lemma idToConnection_id (m : AsyncMultiplexer) (cid : PublicId) (c : Connection)
    (h : m.idToConnection cid = some c) : c.connection_id = cid := by
  have hp := List.find?_some h
  exact eq_of_beq hp

/-- C3: the routing decision.  First conjunct: for every multiplexer and
envelope, the connection id the send path targets is the first non-null of the
context's connection id, the default-routing entry for the protocol, and the
default connection's id.  Second conjunct: an envelope carrying an explicit
context connection id that is registered and passes the whitelist is sent on
exactly that connection, whatever the default routing and default connection
are. -/
theorem c3_routing_first_non_null (m : AsyncMultiplexer) (e : Envelope) :
    (m.send e).target
      = (match e.context.connection_id with
         | some cid => cid
         | none =>
           match dictLookup m.default_routing e.protocol_id with
           | some cid => cid
           | none => m.default_connection.connection_id)
    ∧ (∀ cid conn, e.context.connection_id = some cid →
        m.idToConnection cid = some conn →
        (conn.restricted_to_protocols.length > 0 →
          e.protocol_id ∈ conn.restricted_to_protocols) →
        m.send e = .sendOn conn) := by
  constructor
  · show (AsyncMultiplexer.send m e).target = _
    unfold AsyncMultiplexer.send AsyncMultiplexer.contextOrRoutingId
    cases hc : e.context.connection_id with
    | some cid =>
      cases hf : m.idToConnection cid with
      | none => simp [hf, SendAction.target]
      | some conn =>
        simp [hf, checkRestrictedAndSend_target, idToConnection_id m cid conn hf]
    | none =>
      cases hd : dictLookup m.default_routing e.protocol_id with
      | none => simp [checkRestrictedAndSend_target]
      | some cid =>
        cases hf : m.idToConnection cid with
        | none => simp [hf, SendAction.target]
        | some conn =>
          simp [hf, checkRestrictedAndSend_target, idToConnection_id m cid conn hf]
  · intro cid conn hcid hconn hwl
    unfold AsyncMultiplexer.send AsyncMultiplexer.contextOrRoutingId
    rw [hcid]
    simp only [hconn]
    unfold checkRestrictedAndSend
    rw [if_neg]
    intro hand
    exact hand.2 (hwl hand.1)

/-- C6: when the resolved connection's whitelist is non-empty and excludes the
envelope's protocol id, the send path drops the envelope with a warning:
no send happens on that connection and no exception reaches the caller. -/
theorem c6_whitelist_drop (m : AsyncMultiplexer) (e : Envelope) (conn : Connection)
    (hres : m.routedConnection e = some conn)
    (hlen : conn.restricted_to_protocols.length > 0)
    (hout : e.protocol_id ∉ conn.restricted_to_protocols) :
    m.send e = .droppedIncompatibleProtocol conn := by
  unfold AsyncMultiplexer.routedConnection at hres
  unfold AsyncMultiplexer.send
  cases hc : m.contextOrRoutingId e with
  | some cid =>
    rw [hc] at hres
    have h2 : m.idToConnection cid = some conn := hres
    simp only [h2]
    unfold checkRestrictedAndSend
    rw [if_pos ⟨hlen, hout⟩]
  | none =>
    rw [hc] at hres
    have h2 : m.default_connection = conn := Option.some.inj hres
    show checkRestrictedAndSend m.default_connection e = _
    rw [h2]
    unfold checkRestrictedAndSend
    rw [if_pos ⟨hlen, hout⟩]

/-- C7: when the id resolved from the context or the default routing is not
registered in _id_to_connection, _send raises AEAConnectionError and no
connection's send runs. -/
theorem c7_unknown_id_connection_error (m : AsyncMultiplexer) (e : Envelope)
    (cid : PublicId)
    (hres : m.contextOrRoutingId e = some cid)
    (habs : m.idToConnection cid = none) :
    m.send e = .connectionError cid := by
  unfold AsyncMultiplexer.send
  rw [hres]
  simp only [habs]

/-- A stub connection fixture with no whitelist. -/
def connStub : Connection := { connection_id := ⟨"fetchai", "stub", "0.1.0"⟩ }

/-- A second connection fixture with no whitelist. -/
def connOef : Connection := { connection_id := ⟨"fetchai", "oef", "0.1.0"⟩ }

/-- A connection fixture restricted to the protocol q/y:0.1.0. -/
def connRestricted : Connection :=
  { connection_id := ⟨"fetchai", "oef", "0.1.0"⟩
  , restricted_to_protocols := [⟨"q", "y", "0.1.0"⟩] }

/-- The protocol id p/x:0.1.0 used by the scenarios. -/
def protoPX : ProtocolId := ⟨"p", "x", "0.1.0"⟩

/-- A multiplexer whose default connection is connStub and whose default
routing maps p/x:0.1.0 back to connStub. -/
def muxTwo : AsyncMultiplexer :=
  { connections := [connStub, connOef]
  , default_connection := connStub
  , default_routing := [(protoPX, connStub.connection_id)] }

/-- An envelope whose context explicitly routes to connOef. -/
def envCtxRoute : Envelope :=
  { toAddr := "A", sender := "B", protocol_id := protoPX, message := []
  , context := { connection_id := some connOef.connection_id, uri := none } }

/-- Witness for C3: the context hint wins although the default connection is
connStub and default routing maps the protocol to connStub. -/
theorem c3_witness : muxTwo.send envCtxRoute = .sendOn connOef :=
  (c3_routing_first_non_null muxTwo envCtxRoute).2 connOef.connection_id connOef
    (by decide) (by decide) (by decide)

/-- A multiplexer holding a whitelisted connection next to the default. -/
def muxRestricted : AsyncMultiplexer :=
  { connections := [connStub, connRestricted]
  , default_connection := connStub }

/-- An envelope of protocol p/x:0.1.0 routed by context to the connection
restricted to q/y:0.1.0. -/
def envToRestricted : Envelope :=
  { toAddr := "A", sender := "B", protocol_id := protoPX, message := []
  , context := { connection_id := some connRestricted.connection_id, uri := none } }

/-- Witness for C6: the restricted connection drops the envelope. -/
theorem c6_witness :
    muxRestricted.send envToRestricted = .droppedIncompatibleProtocol connRestricted :=
  c6_whitelist_drop muxRestricted envToRestricted connRestricted
    (by decide) (by decide) (by decide)

/-- An envelope whose context names a connection id registered nowhere. -/
def envUnknownId : Envelope :=
  { toAddr := "A", sender := "B", protocol_id := protoPX, message := []
  , context := { connection_id := some ⟨"u", "n", "0.1.0"⟩, uri := none } }

/-- Witness for C7: an unknown resolved id raises AEAConnectionError. -/
theorem c7_witness :
    muxTwo.send envUnknownId = .connectionError ⟨"u", "n", "0.1.0"⟩ :=
  c7_unknown_id_connection_error muxTwo envUnknownId ⟨"u", "n", "0.1.0"⟩
    (by decide) (by decide)

/-- What one call of await self._send(envelope) inside the send loop does, as
the loop's try block sees it: routing to an unknown id raises
AEAConnectionError (line 700), a whitelist drop returns normally (line 720),
and otherwise connection.send runs, whose behaviour is the transport oracle tr
(lines 722-725 re-raise whatever connection.send raises). -/
inductive SendOutcome where
  | ok
  | raisedAEAConnectionError
  | raisedOther
deriving DecidableEq, Repr

def sendRunOutcome (m : AsyncMultiplexer) (tr : Connection → Envelope → SendOutcome)
    (e : Envelope) : SendOutcome :=
  match m.send e with
  | .connectionError _ => .raisedAEAConnectionError
  | .droppedIncompatibleProtocol _ => .ok
  | .sendOn conn => tr conn e

/-- How a run of the send loop ends. -/
inductive SendLoopExit where
  | sentinelQuit
  | errorReturn
  | queueDrained
deriving DecidableEq, Repr

/-- AsyncMultiplexer._send_loop (lines 615-639) run over a list of out-queue
items (none is the stop sentinel), while the multiplexer stays connected: a
sentinel returns; an AEAConnectionError from _send is logged and the loop
continues (lines 635-636); any other exception is logged and the loop RETURNS
(lines 637-639).  The result is the list of envelopes dequeued and handed to
_send, and how the run ended (queueDrained models an exhausted item list, where
the real loop would keep waiting). -/
def sendLoopRun (m : AsyncMultiplexer) (tr : Connection → Envelope → SendOutcome) :
    List (Option Envelope) → List Envelope × SendLoopExit
  | [] => ([], .queueDrained)
  | none :: _ => ([], .sentinelQuit)
  | some e :: rest =>
    match sendRunOutcome m tr e with
    | .raisedOther => ([e], .errorReturn)
    | _ => (e :: (sendLoopRun m tr rest).1, (sendLoopRun m tr rest).2)

/-- C4 (amended): a ConnectionError raised by _send (routing, or
connection.send itself raising AEAConnectionError) is logged and the loop
continues with the remaining items; any other exception from the send path is
logged and the send loop returns, so subsequent envelopes are not processed. -/
theorem c4_send_loop_error_policy (m : AsyncMultiplexer)
    (tr : Connection → Envelope → SendOutcome) (e : Envelope)
    (rest : List (Option Envelope)) :
    (sendRunOutcome m tr e = .raisedAEAConnectionError →
      sendLoopRun m tr (some e :: rest)
        = (e :: (sendLoopRun m tr rest).1, (sendLoopRun m tr rest).2))
    ∧ (sendRunOutcome m tr e = .raisedOther →
      sendLoopRun m tr (some e :: rest) = ([e], .errorReturn)) := by
  constructor
  · intro h
    simp only [sendLoopRun, h]
  · intro h
    simp only [sendLoopRun, h]

/-- A transport oracle on which every reached connection.send raises a generic
(non-AEAConnectionError) exception. -/
def trAlwaysRaises : Connection → Envelope → SendOutcome := fun _ _ => .raisedOther

/-- A single-connection multiplexer fixture. -/
def muxSingle : AsyncMultiplexer :=
  { connections := [connStub], default_connection := connStub }

/-- An envelope with an empty context. -/
def envPlainX : Envelope :=
  { toAddr := "A", sender := "B", protocol_id := protoPX, message := [] }

/-- Another envelope with an empty context. -/
def envPlainY : Envelope :=
  { toAddr := "C", sender := "B", protocol_id := protoPX, message := [] }

/-- C4 (counterexample): a generic transport exception on the first envelope
makes the send loop return: the second envelope is never processed, refuting
the claim that the loop continues after a transport exception. -/
theorem c4_counterexample :
    sendLoopRun muxSingle trAlwaysRaises [some envPlainX, some envPlainY]
      = ([envPlainX], .errorReturn)
    ∧ envPlainY ∉
        (sendLoopRun muxSingle trAlwaysRaises [some envPlainX, some envPlainY]).1 := by
  constructor
  · rfl
  · decide

/-- Witness for C4 (amended): the routing ConnectionError on envUnknownId lets
the loop continue; the generic transport exception on envPlainX ends the run. -/
theorem c4_witness :
    sendLoopRun muxSingle trAlwaysRaises (some envUnknownId :: [some envPlainX])
      = (envUnknownId :: (sendLoopRun muxSingle trAlwaysRaises [some envPlainX]).1,
         (sendLoopRun muxSingle trAlwaysRaises [some envPlainX]).2)
    ∧ sendLoopRun muxSingle trAlwaysRaises (some envPlainX :: []) = ([envPlainX], .errorReturn) :=
  ⟨(c4_send_loop_error_policy muxSingle trAlwaysRaises envUnknownId [some envPlainX]).1
      (by decide),
   (c4_send_loop_error_policy muxSingle trAlwaysRaises envPlainX []).2 (by decide)⟩

/-- C10: the multiplexer reports connected exactly when every child connection
reports its status as connected (lines 461-464). -/
theorem c10_is_connected_iff_all (m : AsyncMultiplexer) :
    m.is_connected = true
      ↔ ∀ c ∈ m.connections, c.connection_status.is_connected = true := by
  simp [AsyncMultiplexer.is_connected, List.all_eq_true]

/-- _connect_one (lines 559-579): a no-op on an already connected child;
otherwise connection.connect() runs, with the oracle ok saying whether it
succeeds; none models the raised exception, which leaves the child not
connected. -/
def connectOne (ok : PublicId → Bool) (c : Connection) : Option Connection :=
  if c.connection_status.is_connected then some c
  else if ok c.connection_id then
    some { c with connection_status := { c.connection_status with is_connected := true } }
  else none

/-- _disconnect_one (lines 594-613): a no-op on an already disconnected child;
otherwise connection.disconnect() marks it disconnected. -/
def disconnectOne (c : Connection) : Connection :=
  if c.connection_status.is_connected then
    { c with connection_status := { c.connection_status with is_connected := false } }
  else c

/-- _connect_all (lines 541-557): walk the connections in declared order (the
insertion order of _id_to_connection), collecting the successfully handled
ones; the first failure disconnects every collected connection and breaks.
processed holds the walked connections in reverse. -/
def connectAllAux (ok : PublicId → Bool) (processed : List Connection) :
    List Connection → List Connection
  | [] => processed.reverse
  | c :: rest =>
    match connectOne ok c with
    | some c2 => connectAllAux ok (c2 :: processed) rest
    | none => (processed.map disconnectOne).reverse ++ c :: rest

def connectAll (ok : PublicId → Bool) (cs : List Connection) : List Connection :=
  connectAllAux ok [] cs

/-- The per-connection part of _stop (lines 533-538): disconnect every child
that is connected or connecting. -/
def stopConnection (c : Connection) : Connection :=
  if c.connection_status.is_connected || c.connection_status.is_connecting then
    { c with connection_status := { is_connected := false, is_connecting := false } }
  else c

/-- Result of AsyncMultiplexer.connect: normal return, or the raised
AEAConnectionError, each carrying the multiplexer state afterwards. -/
inductive ConnectResult where
  | ok (m : AsyncMultiplexer)
  | connectionError (m : AsyncMultiplexer)
deriving DecidableEq, Repr

/-- AsyncMultiplexer.connect (lines 481-499): an already connected multiplexer
returns at once; otherwise _connect_all runs, and if afterwards not every child
is connected, the failed assert lands in the except branch, which clears the
status flag, runs _stop (disconnecting every still connected or connecting
child) and raises AEAConnectionError.  The loop tasks spawned on success are
not modelled. -/
def AsyncMultiplexer.connect (ok : PublicId → Bool) (m : AsyncMultiplexer) :
    ConnectResult :=
  if m.connection_status.is_connected then .ok m
  else
    let m2 : AsyncMultiplexer := { m with connections := connectAll ok m.connections }
    if m2.is_connected then
      .ok { m2 with connection_status := { m2.connection_status with is_connected := true } }
    else
      .connectionError
        { m2 with
          connections := m2.connections.map stopConnection
        , connection_status := { m2.connection_status with is_connected := false } }

lemma connectOne_none_not_connected (ok : PublicId → Bool) (c : Connection)
    (h : connectOne ok c = none) : c.connection_status.is_connected = false := by
  cases hb : c.connection_status.is_connected
  · rfl
  · unfold connectOne at h
    rw [hb] at h
    simp at h

lemma stopConnection_not_connected (c : Connection) :
    (stopConnection c).connection_status.is_connected = false := by
  unfold stopConnection
  split
  · rfl
  · rename_i h
    cases hb : c.connection_status.is_connected
    · rfl
    · exact absurd (by simp [hb]) h

lemma connectAllAux_fail (ok : PublicId → Bool) (c : Connection) (back : List Connection) :
    ∀ (front : List Connection) (processed : List Connection),
      (∀ x ∈ front, connectOne ok x ≠ none) → connectOne ok c = none →
      ∃ pre, connectAllAux ok processed (front ++ c :: back) = pre ++ c :: back := by
  intro front
  induction front with
  | nil =>
    intro processed _ hfail
    refine ⟨(processed.map disconnectOne).reverse, ?_⟩
    simp only [List.nil_append]
    unfold connectAllAux
    rw [hfail]
  | cons f fs ih =>
    intro processed hfront hfail
    have hf : connectOne ok f ≠ none := hfront f (by simp)
    obtain ⟨f2, hf2⟩ := Option.ne_none_iff_exists'.mp hf
    simp only [List.cons_append]
    unfold connectAllAux
    rw [hf2]
    exact ih (f2 :: processed) (fun x hx => hfront x (by simp [hx])) hfail

/-- C5: during connect(), the children are walked in declared order (the fold
in connectAllAux); if a child's connect() fails while every child before it
succeeds, then connect() raises AEAConnectionError, the multiplexer's status
flag stays false, and every child in the resulting state is disconnected — in
particular each previously connected child of the walked part was rolled back
by _connect_all and the rest by _stop. -/
theorem c5_connect_rollback (ok : PublicId → Bool) (m : AsyncMultiplexer)
    (front : List Connection) (c : Connection) (back : List Connection)
    (hstat : m.connection_status.is_connected = false)
    (hsplit : m.connections = front ++ c :: back)
    (hfront : ∀ x ∈ front, connectOne ok x ≠ none)
    (hfail : connectOne ok c = none) :
    ∃ m2, m.connect ok = .connectionError m2
      ∧ m2.connection_status.is_connected = false
      ∧ ∀ x ∈ m2.connections, x.connection_status.is_connected = false := by
  obtain ⟨pre, hpre⟩ := connectAllAux_fail ok c back front [] hfront hfail
  have hcfalse := connectOne_none_not_connected ok c hfail
  have hall :
      (connectAll ok m.connections).all
        (fun x => x.connection_status.is_connected) = false := by
    unfold connectAll
    rw [hsplit, hpre]
    simp [List.all_append, List.all_cons, hcfalse]
  unfold AsyncMultiplexer.connect
  rw [if_neg (by simp [hstat])]
  rw [if_neg (by simp [AsyncMultiplexer.is_connected, hall])]
  refine ⟨_, rfl, rfl, ?_⟩
  intro x hx
  simp only [List.mem_map] at hx
  obtain ⟨y, _, rfl⟩ := hx
  exact stopConnection_not_connected y

/-- The oracle on which every connect() succeeds except connOef's. -/
def okFailOef : PublicId → Bool := fun cid => !(cid == connOef.connection_id)

/-- A two-connection multiplexer fixture for the lifecycle scenario. -/
def muxLifecycle : AsyncMultiplexer :=
  { connections := [connStub, connOef], default_connection := connStub }

/-- Witness for C5: with connOef's connect() failing after connStub connected,
connect() raises AEAConnectionError and every child ends disconnected. -/
theorem c5_witness :
    ∃ m2, muxLifecycle.connect okFailOef = .connectionError m2
      ∧ m2.connection_status.is_connected = false
      ∧ ∀ x ∈ m2.connections, x.connection_status.is_connected = false :=
  c5_connect_rollback okFailOef muxLifecycle [connStub] connOef [] rfl rfl
    (by decide) (by decide)

/-- One completed receive task processed by the body of _receiving_loop
(lines 656-665): the task's envelope, if any, is put on the in queue; the
task is popped from task_to_connection; a fresh receive task for the same
connection is created and re-inserted exactly when the connection still
reports connected — the task's result plays no part in that decision. -/
def receiveLoopStep (taskConnections : List Connection) (conn : Connection)
    (result : Option Envelope) : List Envelope × List Connection :=
  let enqueued : List Envelope :=
    match result with
    | some e => [e]
    | none => []
  let remaining := taskConnections.erase conn
  if conn.connection_status.is_connected then (enqueued, remaining ++ [conn])
  else (enqueued, remaining)

/-- C8 (amended): a completed receive task's envelope, when present, is
enqueued, and a fresh receive task is spawned for the source connection if and
only if that connection still reports connected — also when the task produced
nothing; a task producing nothing is not respawned only when its connection is
no longer connected. -/
theorem c8_respawn_iff_connected (tasks : List Connection) (conn : Connection)
    (result : Option Envelope) :
    (receiveLoopStep tasks conn result).1 = result.toList
    ∧ (conn.connection_status.is_connected = true →
        (receiveLoopStep tasks conn result).2 = tasks.erase conn ++ [conn])
    ∧ (conn.connection_status.is_connected = false →
        (receiveLoopStep tasks conn result).2 = tasks.erase conn) := by
  refine ⟨?_, ?_, ?_⟩
  · cases result <;> simp [receiveLoopStep] <;> split <;> rfl
  · intro h
    simp [receiveLoopStep, h]
  · intro h
    simp [receiveLoopStep, h]

/-- A connection fixture that reports connected. -/
def connUp : Connection :=
  { connection_id := ⟨"fetchai", "local", "0.1.0"⟩
  , connection_status := { is_connected := true } }

/-- C8 (counterexample): a receive task that completed producing nothing, on a
connection that still reports connected, gets a fresh receive task spawned —
refuting the claim that end-of-stream is never respawned. -/
theorem c8_counterexample :
    (receiveLoopStep [connUp] connUp none).2 = [connUp]
    ∧ connUp ∈ (receiveLoopStep [connUp] connUp none).2 := by
  constructor
  · rfl
  · decide

/-- Witness for C8 (amended): a connected source is respawned, a disconnected
one is not. -/
theorem c8_witness :
    (receiveLoopStep [connUp] connUp (some envPlainX)).2 = [connUp]
    ∧ (receiveLoopStep [connStub] connStub none).2 = [] :=
  ⟨((c8_respawn_iff_connected [connUp] connUp (some envPlainX)).2.1 rfl).trans (by decide),
   ((c8_respawn_iff_connected [connStub] connStub none).2.2 rfl).trans (by decide)⟩

/-- A multiplexer fixture whose only connection reports connected. -/
def muxUp : AsyncMultiplexer :=
  { connections := [connUp], default_connection := connUp }

/-- Witness for C10: the equivalence evaluated on a concrete multiplexer whose
every child is connected. -/
theorem c10_witness : muxUp.is_connected = true :=
  (c10_is_connected_iff_all muxUp).mpr (by decide)

end AeaMail
